import Mathlib

/-!
Shallow embedding of the monitoring core of `pulse_system_infoheavy.py`:
the sampler (`SystemData`), its rate derivation and history buffers, the
disk aggregate, the byte formatter `human_readable_bytes`, and the
process ranking/filtering of `update_process_list`, together with proofs
about them.  Machine floats are modelled as rationals; the OS metrics
source (psutil) is modelled as an explicit environment of readings, with
fallible queries returning `Except`.
-/

namespace Pulse

/-- `MAX_HISTORY = 120` from the source. -/
def MAX_HISTORY : ℕ := 120

/-! ### Byte formatting (`human_readable_bytes`) -/

/-- The unit table `['B', 'KB', 'MB', 'GB', 'TB']`. -/
def unitsList : List String := ["B", "KB", "MB", "GB", "TB"]

/-- Floor of a rational as an integer (executable). -/
def floorQ (x : ℚ) : ℤ := Int.fdiv x.num x.den

/-- Round-half-even to an integer; models rounding used by `"%.1f"`
formatting on the exact values arising in this development. -/
def roundHalfEven (x : ℚ) : ℤ :=
  let f := floorQ x
  let r := x - (f : ℚ)
  if r < 1 / 2 then f
  else if 1 / 2 < r then f + 1
  else if f % 2 = 0 then f else f + 1

/-- One-decimal-place rendering of a (nonnegative) rational, modelling
Python's `f"{n:.1f}"`. -/
def fmt1 (q : ℚ) : String :=
  let n := roundHalfEven (q * 10)
  toString (n / 10) ++ "." ++ toString (n % 10)

/-- The `while n >= step and i < len(units) - 1` loop of
`human_readable_bytes`, with explicit fuel (the loop body always
increments `i`, so `unitsList.length - 1` steps of fuel simulate it
exactly). -/
def hrbGo : ℕ → ℚ → ℕ → ℚ × ℕ
  | 0, n, i => (n, i)
  | fuel + 1, n, i =>
    if 1024 ≤ n ∧ i < unitsList.length - 1 then hrbGo fuel (n / 1024) (i + 1)
    else (n, i)

/-- `human_readable_bytes(n)` from the source: `None` yields `"0 B"`,
otherwise divide by 1024 while the value is at least 1024 and a larger
unit remains, then format with one decimal place. -/
def human_readable_bytes : Option ℚ → String
  | none => "0 B"
  | some n =>
    let r := hrbGo (unitsList.length - 1) n 0
    fmt1 r.1 ++ " " ++ unitsList.getD r.2 "B"

/-! ### Sampler state (`SystemData`) -/

/-- Cumulative network byte counters as returned by
`psutil.net_io_counters()`. -/
structure NetCounters where
  bytes_sent : ℕ
  bytes_recv : ℕ
deriving DecidableEq, Repr

/-- A `psutil.disk_usage` result: `used`, `total`, `percent`. -/
structure DiskUsage where
  used : ℕ
  total : ℕ
  percent : ℚ
deriving DecidableEq, Repr

/-- The snapshot dictionary returned by `SystemData.sample`. -/
structure Sample where
  cpu : ℚ
  ram : ℚ
  disk_percent : ℚ
  net_sent : ℚ
  net_recv : ℚ
deriving DecidableEq, Repr

/-- The mutable state of `SystemData`: last network counters, last
timestamp, and the five history deques. -/
structure SystemData where
  last_net : NetCounters
  last_time : ℚ
  cpu_hist : List ℚ
  ram_hist : List ℚ
  disk_hist : List ℚ
  net_sent_hist : List ℚ
  net_recv_hist : List ℚ
deriving DecidableEq, Repr

/-- `deque(maxlen := m).append v`: keep the last `m` elements of
`xs ++ [v]`. -/
def dequePush (m : ℕ) (xs : List ℚ) (v : ℚ) : List ℚ :=
  (xs ++ [v]).drop (xs.length + 1 - m)

/-- `SystemData.__init__`: store the initial counters and timestamp and
pre-fill every history deque with `MAX_HISTORY` zeros. -/
def SystemData.init (net0 : NetCounters) (t0 : ℚ) : SystemData where
  last_net := net0
  last_time := t0
  cpu_hist := List.replicate MAX_HISTORY 0
  ram_hist := List.replicate MAX_HISTORY 0
  disk_hist := List.replicate MAX_HISTORY 0
  net_sent_hist := List.replicate MAX_HISTORY 0
  net_recv_hist := List.replicate MAX_HISTORY 0

/-- Errors a tick can abort with: a failed CPU/memory query
(`MetricsUnavailable` in the spec's taxonomy) or a failed network
counter query. -/
inductive SampleErr where
  | metricsUnavailable
  | netUnavailable
deriving DecidableEq, Repr

deriving instance DecidableEq for Except

/-- One tick's worth of OS readings: the wall-clock time and the psutil
query results, fallible ones as `Except`.  `partitions` models
`psutil.disk_partitions` (which may itself fail) together with the
per-partition `disk_usage` probes; `rootUsage` models
`psutil.disk_usage("/")`. -/
structure Env where
  now : ℚ
  cpu : Except Unit ℚ
  ram : Except Unit ℚ
  partitions : Except Unit (List (Except Unit DiskUsage))
  rootUsage : Except Unit DiskUsage
  net : Except Unit NetCounters
deriving DecidableEq, Repr

/-- The partition loop of `sample`: accumulate `(total_used, total_total)`
over the partitions whose usage probe succeeded, skipping failures. -/
def diskTotals (l : List (Except Unit DiskUsage)) : ℕ × ℕ :=
  l.foldl
    (fun acc r =>
      match r with
      | .ok u => (acc.1 + u.used, acc.2 + u.total)
      | .error _ => acc)
    (0, 0)

/-- The disk aggregate of `sample`: if partition enumeration succeeded,
`used/total*100` over readable partitions when the readable total is
positive and `0.0` otherwise; if enumeration itself failed, fall back to
`disk_usage("/").percent`, and to `0.0` if that also fails. -/
def diskPercentOf (ps : Except Unit (List (Except Unit DiskUsage)))
    (root : Except Unit DiskUsage) : ℚ :=
  match ps with
  | .ok l =>
    if 0 < (diskTotals l).2 then
      (((diskTotals l).1 : ℚ) / ((diskTotals l).2 : ℚ)) * 100
    else 0
  | .error _ =>
    match root with
    | .ok u => u.percent
    | .error _ => 0

/-- `elapsed = now - self.last_time if now - self.last_time > 0 else 1.0`. -/
def clampedElapsed (now last : ℚ) : ℚ :=
  if 0 < now - last then now - last else 1

/-- `SystemData.sample`: query CPU and RAM (failure aborts the tick),
compute the disk aggregate (never fails), read the network counters,
derive rates over the clamped elapsed time, advance the counter state,
append one value to each history deque, and return the snapshot. -/
def SystemData.sample (env : Env) (st : SystemData) :
    Except SampleErr (SystemData × Sample) :=
  match env.cpu with
  | .error _ => .error .metricsUnavailable
  | .ok cpu =>
    match env.ram with
    | .error _ => .error .metricsUnavailable
    | .ok ram =>
      let disk_percent := diskPercentOf env.partitions env.rootUsage
      match env.net with
      | .error _ => .error .netUnavailable
      | .ok net =>
        let elapsed := clampedElapsed env.now st.last_time
        let sent_rate :=
          ((net.bytes_sent : ℚ) - (st.last_net.bytes_sent : ℚ)) / elapsed
        let recv_rate :=
          ((net.bytes_recv : ℚ) - (st.last_net.bytes_recv : ℚ)) / elapsed
        .ok
          ({ last_net := net
             last_time := env.now
             cpu_hist := dequePush MAX_HISTORY st.cpu_hist cpu
             ram_hist := dequePush MAX_HISTORY st.ram_hist ram
             disk_hist := dequePush MAX_HISTORY st.disk_hist disk_percent
             net_sent_hist := dequePush MAX_HISTORY st.net_sent_hist sent_rate
             net_recv_hist := dequePush MAX_HISTORY st.net_recv_hist recv_rate },
           { cpu := cpu
             ram := ram
             disk_percent := disk_percent
             net_sent := sent_rate
             net_recv := recv_rate })

/-- One scheduled tick as driven by the timer: a failed `sample` leaves
the `SystemData` state untouched (the exception propagates past the
state mutations, which all come after the fallible queries). -/
def runTick (env : Env) (st : SystemData) : SystemData :=
  match SystemData.sample env st with
  | .ok (st', _) => st'
  | .error _ => st

/-- A sequence of scheduled ticks. -/
def ticks (envs : List Env) (st : SystemData) : SystemData :=
  envs.foldl (fun s e => runTick e s) st

/-- The `SystemData` effect of `update_all`: it calls
`self.data.sample()` once (the rest of `update_all` only reads state and
renders). -/
def update_all (env : Env) (st : SystemData) : Except SampleErr SystemData :=
  (SystemData.sample env st).map Prod.fst

/-- The `SystemData` effect of `force_refresh` ("Refresh Now"):
`self.data.sample()` followed by `self.update_all()` — two `sample`
calls in sequence. -/
def force_refresh (env1 env2 : Env) (st : SystemData) :
    Except SampleErr SystemData :=
  match SystemData.sample env1 st with
  | .error e => .error e
  | .ok (st1, _) => update_all env2 st1

/-! ### Process ranking (`update_process_list`) -/

/-- ASCII whitespace test used to model Python's `str.strip()`. -/
def isSpaceChar (c : Char) : Bool :=
  c = ' ' || c = '\t' || c = '\n' || c = '\r'

/-- Python's `str.strip()` at the character-list level. -/
def strTrim (s : String) : String :=
  String.mk (((s.data.dropWhile isSpaceChar).reverse.dropWhile isSpaceChar).reverse)

/-- Python's `str.lower()` at the character-list level. -/
def strLower (s : String) : String :=
  String.mk (s.data.map Char.toLower)

/-- The sort selector combo values `["CPU", "RAM", "PID", "Name"]`. -/
inductive SortKey where
  | CPU
  | RAM
  | PID
  | NAME
deriving DecidableEq, Repr

/-- One enumerated process record `(name, pid, cpu, mem)`. -/
structure ProcRec where
  name : String
  pid : ℕ
  cpu : ℚ
  mem : ℚ
deriving DecidableEq, Repr

/-- The "may come no later than" order realised by each branch of
`procs.sort(...)`: CPU and RAM descending, PID ascending, name
ascending case-insensitively. -/
def sortRel : SortKey → ProcRec → ProcRec → Prop
  | .CPU => fun a b => b.cpu ≤ a.cpu
  | .RAM => fun a b => b.mem ≤ a.mem
  | .PID => fun a b => a.pid ≤ b.pid
  | .NAME => fun a b => strLower a.name ≤ strLower b.name

instance sortRelDecidable (sk : SortKey) : DecidableRel (sortRel sk) :=
  match sk with
  | .CPU => fun a b => inferInstanceAs (Decidable (b.cpu ≤ a.cpu))
  | .RAM => fun a b => inferInstanceAs (Decidable (b.mem ≤ a.mem))
  | .PID => fun a b => inferInstanceAs (Decidable (a.pid ≤ b.pid))
  | .NAME => fun a b => inferInstanceAs (Decidable (strLower a.name ≤ strLower b.name))

/-- Boolean substring containment on character lists, modelling
Python's `q in s`. -/
def strContains (s q : List Char) : Bool :=
  match s with
  | [] => q.isEmpty
  | _ :: t => q.isPrefixOf s || strContains t q

/-- The filter predicate `q in (t[0] or '').lower() or q == str(t[1])`. -/
def procMatches (q : String) (r : ProcRec) : Bool :=
  strContains (strLower r.name).toList q.toList || q == toString r.pid

/-- The `if q: procs = [t for t in procs if ...]` step: the empty query
keeps everything, otherwise keep the matching records. -/
def applyFilter (q : String) (l : List ProcRec) : List ProcRec :=
  if q.data.isEmpty then l else l.filter (procMatches q)

/-- `update_process_list`: lower/strip the query, sort the enumerated
records stably by the selected key, filter, and truncate to `top_n`. -/
def update_process_list (q0 : String) (top_n : ℕ) (sk : SortKey)
    (procs : List ProcRec) : List ProcRec :=
  let q := strLower (strTrim q0)
  (applyFilter q (List.insertionSort (sortRel sk) procs)).take top_n

/-- The five history lengths of a state all equal `MAX_HISTORY`. -/
def allLens (st : SystemData) : Prop :=
  st.cpu_hist.length = MAX_HISTORY ∧ st.ram_hist.length = MAX_HISTORY ∧
  st.disk_hist.length = MAX_HISTORY ∧ st.net_sent_hist.length = MAX_HISTORY ∧
  st.net_recv_hist.length = MAX_HISTORY

/-! ### Concrete readings and states used by the theorems below -/

/-- A counter-reset reading: current counters (5, 2), both below the
stored (10, 3). -/
def envC1 : Env :=
  { now := 10, cpu := .ok 1, ram := .ok 2, partitions := .ok [],
    rootUsage := .error (), net := .ok ⟨5, 2⟩ }

def stC1 : SystemData :=
  { last_net := ⟨10, 3⟩, last_time := 9, cpu_hist := [], ram_hist := [],
    disk_hist := [], net_sent_hist := [], net_recv_hist := [] }

def stC1out : SystemData :=
  { last_net := ⟨5, 2⟩, last_time := 10, cpu_hist := [1], ram_hist := [2],
    disk_hist := [0], net_sent_hist := [-5], net_recv_hist := [-1] }

def sC1out : Sample :=
  { cpu := 1, ram := 2, disk_percent := 0, net_sent := -5, net_recv := -1 }

/-- A clock-anomaly reading: `now = 5` is before the stored timestamp 7. -/
def envC6 : Env :=
  { now := 5, cpu := .ok 3, ram := .ok 4, partitions := .error (),
    rootUsage := .ok ⟨1, 2, 55⟩, net := .ok ⟨9, 10⟩ }

def stC6 : SystemData :=
  { last_net := ⟨4, 4⟩, last_time := 7, cpu_hist := [], ram_hist := [],
    disk_hist := [], net_sent_hist := [], net_recv_hist := [] }

def stC6out : SystemData :=
  { last_net := ⟨9, 10⟩, last_time := 5, cpu_hist := [3], ram_hist := [4],
    disk_hist := [55], net_sent_hist := [5], net_recv_hist := [6] }

def sC6out : Sample :=
  { cpu := 3, ram := 4, disk_percent := 55, net_sent := 5, net_recv := 6 }

/-- A reading whose CPU query fails. -/
def envE : Env :=
  { now := 0, cpu := .error (), ram := .ok 0, partitions := .ok [],
    rootUsage := .error (), net := .ok ⟨0, 0⟩ }

def stE : SystemData := SystemData.init ⟨0, 0⟩ 0

/-- An ordinary successful reading with two readable partitions. -/
def envT : Env :=
  { now := 3, cpu := .ok 11, ram := .ok 12,
    partitions := .ok [.ok ⟨50, 100, 50⟩, .ok ⟨25, 100, 25⟩],
    rootUsage := .error (), net := .ok ⟨8, 9⟩ }

def stT : SystemData :=
  { last_net := ⟨2, 3⟩, last_time := 1, cpu_hist := [], ram_hist := [],
    disk_hist := [], net_sent_hist := [], net_recv_hist := [] }

def stTout : SystemData :=
  { last_net := ⟨8, 9⟩, last_time := 3, cpu_hist := [11], ram_hist := [12],
    disk_hist := [75 / 2], net_sent_hist := [3], net_recv_hist := [3] }

def sTout : Sample :=
  { cpu := 11, ram := 12, disk_percent := 75 / 2, net_sent := 3, net_recv := 3 }

/-- Two consecutive readings driving one "Refresh Now" press. -/
def envF1 : Env :=
  { now := 1, cpu := .ok 7, ram := .ok 17, partitions := .ok [.ok ⟨50, 100, 50⟩],
    rootUsage := .error (), net := .ok ⟨4, 6⟩ }

def envF2 : Env :=
  { now := 2, cpu := .ok 9, ram := .ok 19, partitions := .ok [.ok ⟨75, 100, 75⟩],
    rootUsage := .error (), net := .ok ⟨14, 26⟩ }

def stF0 : SystemData := SystemData.init ⟨0, 0⟩ 0

def stF1 : SystemData :=
  { last_net := ⟨4, 6⟩, last_time := 1,
    cpu_hist := List.replicate 119 0 ++ [7],
    ram_hist := List.replicate 119 0 ++ [17],
    disk_hist := List.replicate 119 0 ++ [50],
    net_sent_hist := List.replicate 119 0 ++ [4],
    net_recv_hist := List.replicate 119 0 ++ [6] }

def sF1 : Sample :=
  { cpu := 7, ram := 17, disk_percent := 50, net_sent := 4, net_recv := 6 }

def stF2 : SystemData :=
  { last_net := ⟨14, 26⟩, last_time := 2,
    cpu_hist := List.replicate 118 0 ++ [7, 9],
    ram_hist := List.replicate 118 0 ++ [17, 19],
    disk_hist := List.replicate 118 0 ++ [50, 75],
    net_sent_hist := List.replicate 118 0 ++ [4, 10],
    net_recv_hist := List.replicate 118 0 ++ [6, 20] }

def sF2 : Sample :=
  { cpu := 9, ram := 19, disk_percent := 75, net_sent := 10, net_recv := 20 }

def stF1only : SystemData :=
  { last_net := ⟨14, 26⟩, last_time := 2,
    cpu_hist := List.replicate 119 0 ++ [9],
    ram_hist := List.replicate 119 0 ++ [19],
    disk_hist := List.replicate 119 0 ++ [75],
    net_sent_hist := List.replicate 119 0 ++ [7],
    net_recv_hist := List.replicate 119 0 ++ [13] }

def sF2only : Sample :=
  { cpu := 9, ram := 19, disk_percent := 75, net_sent := 7, net_recv := 13 }

/-! ### Helper lemmas -/

lemma clampedElapsed_pos (now last : ℚ) : 0 < clampedElapsed now last := by
  unfold clampedElapsed
  split
  · assumption
  · norm_num

lemma dequePush_length {m : ℕ} {xs : List ℚ} (v : ℚ) (h : m ≤ xs.length + 1) :
    (dequePush m xs v).length = m := by
  simp [dequePush]
  omega

lemma dequePush_getLast? {m : ℕ} (xs : List ℚ) (v : ℚ) (h : 0 < m) :
    (dequePush m xs v).getLast? = some v := by
  unfold dequePush
  rw [List.drop_append_of_le_length (by omega)]
  exact List.getLast?_concat _

lemma sample_eq_ok {env : Env} {st st' : SystemData} {s : Sample}
    (h : SystemData.sample env st = .ok (st', s)) :
    ∃ cpu ram net, env.cpu = .ok cpu ∧ env.ram = .ok ram ∧ env.net = .ok net ∧
      st' = { last_net := net, last_time := env.now,
              cpu_hist := dequePush MAX_HISTORY st.cpu_hist cpu,
              ram_hist := dequePush MAX_HISTORY st.ram_hist ram,
              disk_hist := dequePush MAX_HISTORY st.disk_hist
                (diskPercentOf env.partitions env.rootUsage),
              net_sent_hist := dequePush MAX_HISTORY st.net_sent_hist
                (((net.bytes_sent : ℚ) - (st.last_net.bytes_sent : ℚ)) /
                  clampedElapsed env.now st.last_time),
              net_recv_hist := dequePush MAX_HISTORY st.net_recv_hist
                (((net.bytes_recv : ℚ) - (st.last_net.bytes_recv : ℚ)) /
                  clampedElapsed env.now st.last_time) } ∧
      s = { cpu := cpu, ram := ram,
            disk_percent := diskPercentOf env.partitions env.rootUsage,
            net_sent := ((net.bytes_sent : ℚ) - (st.last_net.bytes_sent : ℚ)) /
              clampedElapsed env.now st.last_time,
            net_recv := ((net.bytes_recv : ℚ) - (st.last_net.bytes_recv : ℚ)) /
              clampedElapsed env.now st.last_time } := by
  revert h
  unfold SystemData.sample
  cases hc : env.cpu with
  | error e => intro h; cases h
  | ok cpu =>
    cases hr : env.ram with
    | error e => intro h; cases h
    | ok ram =>
      cases hn : env.net with
      | error e => intro h; cases h
      | ok net =>
        intro h
        simp only [Except.ok.injEq, Prod.mk.injEq] at h
        exact ⟨cpu, ram, net, rfl, rfl, rfl, h.1.symm, h.2.symm⟩

lemma sampleC1_eval : SystemData.sample envC1 stC1 = .ok (stC1out, sC1out) := by
  norm_num [SystemData.sample, envC1, stC1, stC1out, sC1out, clampedElapsed,
    diskPercentOf, diskTotals, dequePush, MAX_HISTORY]

lemma sampleC6_eval : SystemData.sample envC6 stC6 = .ok (stC6out, sC6out) := by
  norm_num [SystemData.sample, envC6, stC6, stC6out, sC6out, clampedElapsed,
    diskPercentOf, diskTotals, dequePush, MAX_HISTORY]

lemma sampleT_eval : SystemData.sample envT stT = .ok (stTout, sTout) := by
  norm_num [SystemData.sample, envT, stT, stTout, sTout, clampedElapsed,
    diskPercentOf, diskTotals, dequePush, MAX_HISTORY]

set_option maxRecDepth 4000 in
lemma allLens_runTick (env : Env) (st : SystemData) (h : allLens st) :
    allLens (runTick env st) := by
  unfold runTick
  cases hs : SystemData.sample env st with
  | error e => exact h
  | ok p =>
    obtain ⟨st', s⟩ := p
    obtain ⟨cpu, ram, net, _, _, _, hst, _⟩ := sample_eq_ok hs
    obtain ⟨h1, h2, h3, h4, h5⟩ := h
    subst hst
    exact ⟨dequePush_length _ (by rw [h1]; exact Nat.le_succ _),
      dequePush_length _ (by rw [h2]; exact Nat.le_succ _),
      dequePush_length _ (by rw [h3]; exact Nat.le_succ _),
      dequePush_length _ (by rw [h4]; exact Nat.le_succ _),
      dequePush_length _ (by rw [h5]; exact Nat.le_succ _)⟩

lemma allLens_ticks (envs : List Env) :
    ∀ st : SystemData, allLens st → allLens (ticks envs st) := by
  induction envs with
  | nil => intro st h; exact h
  | cons e es ih =>
    intro st h
    exact ih (runTick e st) (allLens_runTick e st h)

/-! ### Claim theorems -/

/-- C4: every history series is pre-filled with `MAX_HISTORY = 120` zeros
at construction, and after any sequence of ticks each of the five series
still has length exactly `MAX_HISTORY`. -/
theorem history_length_invariant :
    ∀ (net0 : NetCounters) (t0 : ℚ),
      (SystemData.init net0 t0).cpu_hist = List.replicate MAX_HISTORY 0 ∧
      (SystemData.init net0 t0).ram_hist = List.replicate MAX_HISTORY 0 ∧
      (SystemData.init net0 t0).disk_hist = List.replicate MAX_HISTORY 0 ∧
      (SystemData.init net0 t0).net_sent_hist = List.replicate MAX_HISTORY 0 ∧
      (SystemData.init net0 t0).net_recv_hist = List.replicate MAX_HISTORY 0 ∧
      ∀ envs : List Env, allLens (ticks envs (SystemData.init net0 t0)) := by
  intro net0 t0
  refine ⟨rfl, rfl, rfl, rfl, rfl, ?_⟩
  intro envs
  exact allLens_ticks envs _ (by simp [SystemData.init, allLens])

/-- C9: if the CPU or the memory query fails, the tick aborts with
`metricsUnavailable` and the state — all five history series and the
counter state — is left untouched. -/
theorem metrics_unavailable_atomic :
    ∀ (env : Env) (st : SystemData),
      env.cpu = .error () ∨ env.ram = .error () →
      SystemData.sample env st = .error .metricsUnavailable ∧
      runTick env st = st := by
  intro env st h
  have hs : SystemData.sample env st = .error .metricsUnavailable := by
    unfold SystemData.sample
    rcases h with h | h
    · simp [h]
    · cases hc : env.cpu with
      | error e => simp
      | ok c => simp [h]
  refine ⟨hs, ?_⟩
  unfold runTick
  rw [hs]

/-- C9 witness: a failed CPU query at a concrete reading leaves the
concrete initial state unchanged. -/
theorem metrics_unavailable_atomic_witness :
    SystemData.sample envE stE = .error .metricsUnavailable ∧
    runTick envE stE = stE :=
  metrics_unavailable_atomic envE stE (Or.inl rfl)

/-- C10: on every successful `sample`, the freshly appended last element
of each of the five history series equals the corresponding field of the
returned snapshot. -/
theorem snapshot_history_consistent :
    ∀ (env : Env) (st st' : SystemData) (s : Sample),
      SystemData.sample env st = .ok (st', s) →
      st'.cpu_hist.getLast? = some s.cpu ∧
      st'.ram_hist.getLast? = some s.ram ∧
      st'.disk_hist.getLast? = some s.disk_percent ∧
      st'.net_sent_hist.getLast? = some s.net_sent ∧
      st'.net_recv_hist.getLast? = some s.net_recv := by
  intro env st st' s h
  obtain ⟨cpu, ram, net, _, _, _, hst, hs⟩ := sample_eq_ok h
  subst hst
  subst hs
  refine ⟨?_, ?_, ?_, ?_, ?_⟩ <;>
    exact dequePush_getLast? _ _ (by norm_num [MAX_HISTORY])

/-- C10 witness: the consistency holds at a concrete successful sample. -/
theorem snapshot_history_consistent_witness :
    stTout.cpu_hist.getLast? = some sTout.cpu ∧
    stTout.ram_hist.getLast? = some sTout.ram ∧
    stTout.disk_hist.getLast? = some sTout.disk_percent ∧
    stTout.net_sent_hist.getLast? = some sTout.net_sent ∧
    stTout.net_recv_hist.getLast? = some sTout.net_recv :=
  snapshot_history_consistent envT stT stTout sTout sampleT_eval

/-- C6: the elapsed divisor used by the rate computation is always
positive — when `now - last_time ≤ 0` it is clamped to 1 — and on every
successful sample both rates are exactly the counter difference divided
by that clamped (hence nonzero, finite) divisor. -/
theorem elapsed_clamp_safe :
    ∀ (env : Env) (st st' : SystemData) (s : Sample) (n : NetCounters),
      SystemData.sample env st = .ok (st', s) → env.net = .ok n →
      0 < clampedElapsed env.now st.last_time ∧
      (env.now - st.last_time ≤ 0 → clampedElapsed env.now st.last_time = 1) ∧
      s.net_sent = ((n.bytes_sent : ℚ) - (st.last_net.bytes_sent : ℚ)) /
        clampedElapsed env.now st.last_time ∧
      s.net_recv = ((n.bytes_recv : ℚ) - (st.last_net.bytes_recv : ℚ)) /
        clampedElapsed env.now st.last_time := by
  intro env st st' s n h hn
  obtain ⟨cpu, ram, net, _, _, hnet, hst, hs⟩ := sample_eq_ok h
  rw [hn] at hnet
  obtain rfl : n = net := by simpa using hnet
  refine ⟨clampedElapsed_pos _ _, ?_, ?_, ?_⟩
  · intro hle
    unfold clampedElapsed
    rw [if_neg (by linarith)]
  · rw [hs]
  · rw [hs]

/-- C6 witness: with a reading whose timestamp is before the stored one,
the divisor is clamped to 1 and the rates are the plain counter
differences. -/
theorem elapsed_clamp_safe_witness :
    0 < clampedElapsed envC6.now stC6.last_time ∧
    (envC6.now - stC6.last_time ≤ 0 →
      clampedElapsed envC6.now stC6.last_time = 1) ∧
    sC6out.net_sent =
      (((9 : ℕ) : ℚ) - (stC6.last_net.bytes_sent : ℚ)) /
        clampedElapsed envC6.now stC6.last_time ∧
    sC6out.net_recv =
      (((10 : ℕ) : ℚ) - (stC6.last_net.bytes_recv : ℚ)) /
        clampedElapsed envC6.now stC6.last_time :=
  elapsed_clamp_safe envC6 stC6 stC6out sC6out ⟨9, 10⟩ sampleC6_eval rfl

/-- C1 counterexample: at a counter reset of both counters (current
sent 5 below stored 10, current recv 2 below stored 3, positive elapsed
time) the code's rates are `-5` and `-1` — negative values, not the
claimed clamp to 0. -/
theorem counter_reset_negative_rate_cex :
    stC1.last_net = ⟨10, 3⟩ ∧ envC1.net = .ok ⟨5, 2⟩ ∧
    (5 : ℕ) < 10 ∧ (2 : ℕ) < 3 ∧
    SystemData.sample envC1 stC1 = .ok (stC1out, sC1out) ∧
    sC1out.net_sent = -5 ∧ sC1out.net_sent < 0 ∧ ¬ sC1out.net_sent = 0 ∧
    sC1out.net_recv = -1 ∧ sC1out.net_recv < 0 ∧ ¬ sC1out.net_recv = 0 :=
  ⟨rfl, rfl, by norm_num, by norm_num, sampleC1_eval,
    rfl, by norm_num [sC1out], by norm_num [sC1out],
    rfl, by norm_num [sC1out], by norm_num [sC1out]⟩

/-- C1 amended: each computed rate is `(current - previous) / elapsed`
for its own counter, so on a counter reset (`current < previous`, for
the sent or the recv counter alike) that counter's rate is strictly
negative — the code has no clamp to 0. -/
theorem counter_reset_rate_amended :
    ∀ (env : Env) (st st' : SystemData) (s : Sample) (n : NetCounters),
      SystemData.sample env st = .ok (st', s) → env.net = .ok n →
      (s.net_sent = ((n.bytes_sent : ℚ) - (st.last_net.bytes_sent : ℚ)) /
          clampedElapsed env.now st.last_time ∧
        (n.bytes_sent < st.last_net.bytes_sent → s.net_sent < 0)) ∧
      (s.net_recv = ((n.bytes_recv : ℚ) - (st.last_net.bytes_recv : ℚ)) /
          clampedElapsed env.now st.last_time ∧
        (n.bytes_recv < st.last_net.bytes_recv → s.net_recv < 0)) := by
  intro env st st' s n h hn
  obtain ⟨cpu, ram, net, _, _, hnet, hst, hs⟩ := sample_eq_ok h
  rw [hn] at hnet
  obtain rfl : n = net := by simpa using hnet
  refine ⟨⟨by rw [hs], ?_⟩, ⟨by rw [hs], ?_⟩⟩
  · intro hlt
    rw [hs]
    exact div_neg_of_neg_of_pos
      (by
        rw [sub_neg]
        exact_mod_cast hlt)
      (clampedElapsed_pos _ _)
  · intro hlt
    rw [hs]
    exact div_neg_of_neg_of_pos
      (by
        rw [sub_neg]
        exact_mod_cast hlt)
      (clampedElapsed_pos _ _)

/-- C1 amended witness: at the concrete reading that resets both
counters, both rates are negative. -/
theorem counter_reset_rate_amended_witness :
    SystemData.sample envC1 stC1 = .ok (stC1out, sC1out) ∧
    sC1out.net_sent < 0 ∧ sC1out.net_recv < 0 :=
  ⟨sampleC1_eval,
    (counter_reset_rate_amended envC1 stC1 stC1out sC1out ⟨5, 2⟩ sampleC1_eval
      rfl).1.2 (by norm_num [stC1]),
    (counter_reset_rate_amended envC1 stC1 stC1out sC1out ⟨5, 2⟩ sampleC1_eval
      rfl).2.2 (by norm_num [stC1])⟩

/-- C3 counterexample: when partition enumeration succeeds but every
partition's usage probe fails, the code reports `0.0` directly — it does
not fall back to the readable root probe (whose percent here is 42). -/
theorem disk_fallback_not_taken_cex :
    diskPercentOf (.ok [.error ()]) (.ok ⟨0, 0, 42⟩) = 0 ∧ (0 : ℚ) ≠ 42 :=
  ⟨by norm_num [diskPercentOf, diskTotals], by norm_num⟩

/-- C3 amended: the aggregate is `sum(used)/sum(total)*100` over readable
partitions with unreadable ones skipped; when the readable total is zero
(including the all-partitions-fail case) the result is `0.0` with no root
probe; the root-percent fallback applies only when enumeration itself
fails, degrading to `0.0` if the probe fails too; no error is ever
propagated (the function is total). -/
theorem disk_percent_amended :
    ∀ (l : List (Except Unit DiskUsage)) (root : Except Unit DiskUsage)
      (u : DiskUsage),
      (0 < (diskTotals l).2 →
        diskPercentOf (.ok l) root =
          ((diskTotals l).1 : ℚ) / ((diskTotals l).2 : ℚ) * 100) ∧
      ((diskTotals l).2 = 0 → diskPercentOf (.ok l) root = 0) ∧
      diskPercentOf (.error ()) (.ok u) = u.percent ∧
      diskPercentOf (.error ()) (.error ()) = 0 ∧
      diskPercentOf (.ok [.ok ⟨50, 100, 50⟩, .ok ⟨25, 100, 25⟩]) root = 75 / 2 := by
  intro l root u
  refine ⟨?_, ?_, rfl, rfl, ?_⟩
  · intro h
    simp only [diskPercentOf]
    rw [if_pos h]
  · intro h
    simp only [diskPercentOf]
    rw [if_neg (by omega)]
  · norm_num [diskPercentOf, diskTotals]

/-- C3 amended witness: a single unreadable partition gives readable
total 0 and aggregate 0, even though the root probe would have answered. -/
theorem disk_percent_amended_witness :
    (diskTotals [.error ()]).2 = 0 ∧
    diskPercentOf (.ok [.error ()]) (.ok ⟨0, 0, 42⟩) = 0 :=
  ⟨rfl, (disk_percent_amended [.error ()] (.ok ⟨0, 0, 42⟩) ⟨0, 0, 42⟩).2.1 rfl⟩

/-- C5 counterexample: `human_readable_bytes` applied to the number 0
yields `"0.0 B"`, not the claimed `"0 B"` (only a `None` input produces
`"0 B"`). -/
theorem humanize_zero_cex :
    human_readable_bytes (some 0) = "0.0 B" ∧ ("0.0 B" : String) ≠ "0 B" := by
  constructor
  · norm_num [human_readable_bytes, hrbGo, fmt1, roundHalfEven, floorQ,
      unitsList]
    rfl
  · decide

/-- C5 amended: the formatter steps through B/KB/MB/GB/TB in base 1024
with one decimal place; `humanize(1536) = "1.5 KB"` and
`humanize(2^30) = "1.0 GB"` as claimed, but `humanize(0) = "0.0 B"`
(`"0 B"` is reserved for `None`); the unit stops at TB. -/
theorem humanize_amended :
    human_readable_bytes none = "0 B" ∧
    human_readable_bytes (some 0) = "0.0 B" ∧
    human_readable_bytes (some 1536) = "1.5 KB" ∧
    human_readable_bytes (some 1073741824) = "1.0 GB" ∧
    human_readable_bytes (some (1536 * 1024 * 1024 * 1024)) = "1.5 TB" ∧
    human_readable_bytes (some (1024 * 1024 * 1024 * 1024 * 1024)) =
      "1024.0 TB" := by
  refine ⟨rfl, ?_, ?_, ?_, ?_, ?_⟩ <;>
    norm_num [human_readable_bytes, hrbGo, fmt1, roundHalfEven, floorQ,
      unitsList] <;> rfl

lemma sortRel_total (sk : SortKey) :
    ∀ a b : ProcRec, sortRel sk a b ∨ sortRel sk b a := by
  cases sk <;> intro a b <;> exact le_total _ _

lemma sortRel_trans (sk : SortKey) :
    ∀ a b c : ProcRec, sortRel sk a b → sortRel sk b c → sortRel sk a c := by
  cases sk <;> intro a b c hab hbc
  · exact le_trans hbc hab
  · exact le_trans hbc hab
  · exact le_trans hab hbc
  · exact le_trans hab hbc

lemma applyFilter_sublist (q : String) (l : List ProcRec) :
    List.Sublist (applyFilter q l) l := by
  unfold applyFilter
  split
  · exact List.Sublist.refl l
  · exact List.filter_sublist l

/-- C7: the ranked view is bounded by `top_n`, sorted by the selected
key's order, a stable sort of the full enumeration (a permutation of it,
and with the empty filter literally the sorted list truncated), and on
the spec's concrete records CPU-descending ranking gives `[B, C, A]`,
truncating to `[B, C]` for `top_n = 2` (B before C: stable tie at 50). -/
theorem process_ranking_sorted_bounded :
    ∀ (procs : List ProcRec) (q0 : String) (sk : SortKey) (top_n : ℕ),
      (update_process_list q0 top_n sk procs).length ≤ top_n ∧
      List.Sorted (sortRel sk) (update_process_list q0 top_n sk procs) ∧
      List.Perm (List.insertionSort (sortRel sk) procs) procs ∧
      update_process_list "" top_n sk procs =
        (List.insertionSort (sortRel sk) procs).take top_n ∧
      update_process_list "" 30 .CPU
          [⟨"A", 1, 10, 5⟩, ⟨"B", 2, 50, 5⟩, ⟨"C", 3, 50, 1⟩] =
        [⟨"B", 2, 50, 5⟩, ⟨"C", 3, 50, 1⟩, ⟨"A", 1, 10, 5⟩] ∧
      update_process_list "" 2 .CPU
          [⟨"A", 1, 10, 5⟩, ⟨"B", 2, 50, 5⟩, ⟨"C", 3, 50, 1⟩] =
        [⟨"B", 2, 50, 5⟩, ⟨"C", 3, 50, 1⟩] := by
  intro procs q0 sk top_n
  haveI : IsTotal ProcRec (sortRel sk) := ⟨sortRel_total sk⟩
  haveI : IsTrans ProcRec (sortRel sk) := ⟨sortRel_trans sk⟩
  refine ⟨List.length_take_le _ _, ?_, List.perm_insertionSort _ _, rfl,
    by decide, by decide⟩
  exact List.Pairwise.sublist
    ((List.take_sublist _ _).trans (applyFilter_sublist _ _))
    (List.sorted_insertionSort _ _)

lemma strContains_iff (s q : List Char) :
    strContains s q = true ↔ ∃ u v, s = u ++ q ++ v := by
  induction s with
  | nil =>
    simp only [strContains, List.isEmpty_iff]
    constructor
    · rintro rfl
      exact ⟨[], [], rfl⟩
    · rintro ⟨u, v, h⟩
      have h' := h.symm
      simp only [List.append_eq_nil] at h'
      exact h'.1.2
  | cons c t ih =>
    simp only [strContains, Bool.or_eq_true, ih,
      List.isPrefixOf_iff_prefix]
    constructor
    · rintro (⟨w, hw⟩ | ⟨u, v, rfl⟩)
      · exact ⟨[], w, by rw [List.nil_append]; exact hw.symm⟩
      · exact ⟨c :: u, v, rfl⟩
    · rintro ⟨u, v, h⟩
      cases u with
      | nil =>
        left
        exact ⟨v, by simpa using h.symm⟩
      | cons c' u' =>
        right
        rw [List.cons_append, List.cons_append] at h
        injection h with hc ht
        exact ⟨u', v, ht⟩

lemma procMatches_iff (q : String) (r : ProcRec) :
    procMatches q r = true ↔
      (∃ u v, (strLower r.name).toList = u ++ q.toList ++ v) ∨
      q = toString r.pid := by
  unfold procMatches
  rw [Bool.or_eq_true, strContains_iff, beq_iff_eq]

/-- C8: a record passes the filter iff the lowercased name contains the
query as a substring or the query is exactly the decimal PID string; the
empty query keeps every record; on the spec's concrete records the query
`"3"` keeps exactly the record named `"xy3"` and the record with PID 3. -/
theorem filter_semantics :
    ∀ (q : String) (l : List ProcRec) (r : ProcRec),
      (r ∈ applyFilter q l ↔
        r ∈ l ∧ (q = "" ∨
          (∃ u v, (strLower r.name).toList = u ++ q.toList ++ v) ∨
          q = toString r.pid)) ∧
      applyFilter "" l = l ∧
      applyFilter "3" [⟨"abc", 1, 0, 0⟩, ⟨"xy3", 2, 0, 0⟩, ⟨"foo", 3, 0, 0⟩] =
        [⟨"xy3", 2, 0, 0⟩, ⟨"foo", 3, 0, 0⟩] := by
  intro q l r
  refine ⟨?_, rfl, by decide⟩
  by_cases hq : q = ""
  · subst hq
    simp [applyFilter]
  · have hq' : q.data.isEmpty = false := by
      cases q with
      | mk d =>
        cases d with
        | nil => exact absurd rfl hq
        | cons a as => rfl
    unfold applyFilter
    rw [if_neg (by simp [hq'])]
    rw [List.mem_filter, procMatches_iff]
    simp only [hq, false_or]

lemma dequePush_full_replicate (m n : ℕ) (l : List ℚ) (v : ℚ)
    (h : n + 1 + l.length = m) :
    dequePush m (List.replicate (n + 1) (0 : ℚ) ++ l) v =
      List.replicate n 0 ++ (l ++ [v]) := by
  unfold dequePush
  have hd : (List.replicate (n + 1) (0 : ℚ) ++ l).length + 1 - m = 1 := by
    simp
    omega
  rw [hd, List.replicate_succ, List.cons_append, List.cons_append,
    List.drop_succ_cons, List.drop_zero, List.append_assoc]

lemma dequePush_fresh (v : ℚ) :
    dequePush 120 (List.replicate 120 (0 : ℚ)) v =
      List.replicate 119 0 ++ [v] := by
  have h := dequePush_full_replicate 120 119 [] v (by norm_num)
  simpa using h

lemma dequePush_second (a v : ℚ) :
    dequePush 120 (List.replicate 119 (0 : ℚ) ++ [a]) v =
      List.replicate 118 0 ++ [a, v] := by
  have h := dequePush_full_replicate 120 118 [a] v (by norm_num)
  simpa using h

lemma sampleF1_eval : SystemData.sample envF1 stF0 = .ok (stF1, sF1) := by
  norm_num [SystemData.sample, envF1, stF0, SystemData.init, stF1, sF1,
    clampedElapsed, diskPercentOf, diskTotals, dequePush_fresh, MAX_HISTORY]

lemma sampleF2_eval : SystemData.sample envF2 stF1 = .ok (stF2, sF2) := by
  norm_num [SystemData.sample, envF2, stF1, stF2, sF2, clampedElapsed,
    diskPercentOf, diskTotals, dequePush_second, MAX_HISTORY]

lemma sampleF2only_eval :
    SystemData.sample envF2 stF0 = .ok (stF1only, sF2only) := by
  norm_num [SystemData.sample, envF2, stF0, SystemData.init, stF1only,
    sF2only, clampedElapsed, diskPercentOf, diskTotals, dequePush_fresh,
    MAX_HISTORY]

/-- C2 evaluation (code bug): one "Refresh Now" press runs `sample`
twice — once directly in `force_refresh` and once inside the
`update_all` it then calls — so starting from the freshly initialised
state the press appends TWO values (7 then 9 for cpu, 4 then 10 for
net-sent, ...) to each series, whereas a single tick from the same state
appends exactly one. -/
theorem force_refresh_double_sample_eval :
    (force_refresh envF1 envF2 stF0).toOption.map
        (fun st => (st.cpu_hist, st.ram_hist, st.disk_hist,
          st.net_sent_hist, st.net_recv_hist)) =
      some (List.replicate 118 0 ++ [7, 9], List.replicate 118 0 ++ [17, 19],
        List.replicate 118 0 ++ [50, 75], List.replicate 118 0 ++ [4, 10],
        List.replicate 118 0 ++ [6, 20]) ∧
    (runTick envF2 stF0).cpu_hist = List.replicate 119 0 ++ [9] ∧
    (runTick envF2 stF0).net_sent_hist = List.replicate 119 0 ++ [7] ∧
    stF0.cpu_hist = List.replicate MAX_HISTORY 0 := by
  refine ⟨?_, ?_, ?_, rfl⟩
  · simp only [force_refresh, sampleF1_eval, update_all, sampleF2_eval,
      Except.map, Except.toOption, Option.map_some]
    simp [stF2]
  · unfold runTick
    rw [sampleF2only_eval]
    simp [stF1only]
  · unfold runTick
    rw [sampleF2only_eval]
    simp [stF1only]

end Pulse
